import Mathlib

/-!
Shallow embedding of `SceneManager.cpp` (CS-330 scene-preparation and
rendering layer): the tagged texture registry, the material registry, the
transform composition, the shader-uniform binding protocol, and the
control-flow shape of scene preparation.

C++ `float` values are embedded as real numbers; machine integers as
`Nat`/`Int`; the shader-uniform store kept behind `m_pShaderManager` is an
explicit record in which every uniform is `Option`-valued, `none` meaning
"never uploaded" and `some v` meaning "last uploaded value is `v`".
-/

set_option maxHeartbeats 1000000

abbrev Vec2 : Type := ℝ × ℝ

abbrev Vec3 : Type := ℝ × ℝ × ℝ

abbrev Vec4 : Type := ℝ × ℝ × ℝ × ℝ

abbrev Mat4 : Type := Matrix (Fin 4) (Fin 4) ℝ

/-- One entry of the `m_textureIDs` array: a GL texture handle (`ID`,
written by `glGenTextures`) and the tag string it was registered under.
The struct itself is declared in `SceneManager.h` (not part of `src/`);
its two fields `ID` and `tag` are exactly the ones `SceneManager.cpp`
uses. -/
structure TextureSlot where
  ID : Nat
  tag : String
deriving DecidableEq

/-- `OBJECT_MATERIAL` (declared in `SceneManager.h`, used throughout
`SceneManager.cpp`): five material fields plus the lookup tag. -/
structure OBJECT_MATERIAL where
  diffuseColor : Vec3
  specularColor : Vec3
  shininess : ℝ
  ambientColor : Vec3
  ambientStrength : ℝ
  tag : String

/-- The per-slot point-light uniforms `pointLights[i].position/ambient/
diffuse/specular/bActive` of the shader program. -/
structure PointLight where
  position : Option Vec3
  ambient : Option Vec3
  diffuse : Option Vec3
  specular : Option Vec3
  bActive : Option Bool

/-- The shader-uniform store held behind `m_pShaderManager`: one field per
named uniform that `SceneManager.cpp` ever uploads.  `none` = the uniform
has never been set since program start. -/
structure ShaderState where
  /-- uniform "model" (`g_ModelName`) -/
  model : Option Mat4
  /-- uniform "objectColor" (`g_ColorValueName`) -/
  objectColor : Option Vec4
  /-- uniform "objectTexture" (`g_TextureValueName`), a sampler index -/
  objectTexture : Option Int
  /-- uniform "bUseTexture" (`g_UseTextureName`) -/
  bUseTexture : Option Bool
  /-- uniform "bUseLighting" (`g_UseLightingName`) -/
  bUseLighting : Option Bool
  /-- uniform "viewPosition" -/
  viewPosition : Option Vec3
  /-- uniform "UVscale" -/
  UVscale : Option Vec2
  /-- uniform "material.ambientColor" -/
  materialAmbientColor : Option Vec3
  /-- uniform "material.ambientStrength" -/
  materialAmbientStrength : Option ℝ
  /-- uniform "material.diffuseColor" -/
  materialDiffuseColor : Option Vec3
  /-- uniform "material.specularColor" -/
  materialSpecularColor : Option Vec3
  /-- uniform "material.shininess" -/
  materialShininess : Option ℝ
  /-- uniforms "pointLights[i].…" -/
  pointLights : Nat → PointLight
  /-- uniform "spotLight.bActive" -/
  spotLightActive : Option Bool

/-- A point light with no uniform ever uploaded. -/
def initPointLight : PointLight :=
  { position := none, ambient := none, diffuse := none, specular := none,
    bActive := none }

/-- A shader-uniform store with no uniform ever uploaded. -/
def initShader : ShaderState :=
  { model := none, objectColor := none, objectTexture := none,
    bUseTexture := none, bUseLighting := none, viewPosition := none,
    UVscale := none, materialAmbientColor := none,
    materialAmbientStrength := none, materialDiffuseColor := none,
    materialSpecularColor := none, materialShininess := none,
    pointLights := fun _ => initPointLight, spotLightActive := none }

/-- Uploading into `pointLights[i]`: update slot `i` of the point-light
uniform array, leaving every other slot unchanged. -/
def setPointLight (i : Nat) (upd : PointLight → PointLight)
    (sh : ShaderState) : ShaderState :=
  { sh with pointLights := fun j =>
      if j = i then upd (sh.pointLights j) else sh.pointLights j }

/-- The `SceneManager` state that `SceneManager.cpp` reads and writes:
`m_pShaderManager` (a possibly-NULL pointer, embedded as an `Option` of
the uniform store it owns), the registered prefix of the `m_textureIDs`
array together with `m_loadedTextures` (embedded as a list whose length
is `m_loadedTextures`), and the `m_objectMaterials` vector. -/
structure SceneManager where
  shader : Option ShaderState
  textureIDs : List TextureSlot
  objectMaterials : List OBJECT_MATERIAL

/-- The decoded result of `stbi_load`: width, height and channel count
(the pixel payload itself never influences registry state). -/
structure ImageData where
  width : Int
  height : Int
  channels : Int
deriving DecidableEq

/-- `SceneManager::CreateGLTexture` (SceneManager.cpp lines 62-126).
`image` is what `stbi_load` returned (`none` = decode failure) and
`textureID` is the handle `glGenTextures` produced.  Control flow of the
source: on decode failure print and return `false`; on a channel count
other than 3 or 4 print and return `false` (registry untouched); otherwise
upload the pixels, then execute `m_textureIDs[m_loadedTextures] = …;
m_loadedTextures++` with NO bounds check.  The array `m_textureIDs` has a
fixed capacity of 16 entries (`SceneManager.h` is not in `src/`; the
capacity 16 is the one stated by the source comment at line 132, "There
are up to 16 slots", and by the spec).  A write at index ≥ 16 is an
out-of-bounds write, i.e. undefined behavior, embedded as `none`. -/
def CreateGLTexture (image : Option ImageData) (textureID : Nat)
    (tag : String) (sm : SceneManager) : Option (Bool × SceneManager) :=
  match image with
  | some img =>
      if img.channels = 3 ∨ img.channels = 4 then
        if sm.textureIDs.length < 16 then
          some (true,
            { sm with textureIDs := sm.textureIDs ++ [⟨textureID, tag⟩] })
        else
          none
      else
        some (false, sm)
  | none => some (false, sm)

/-- The `while` loop of `SceneManager::FindTextureID` (lines 164-182):
scan the registered slots in order; on the first slot whose tag compares
equal, record its `ID` and stop; `textureID` stays `-1` otherwise. -/
def findTextureIDLoop : List TextureSlot → String → Int
  | [], _ => -1
  | s :: rest, tag =>
      if s.tag = tag then (s.ID : Int) else findTextureIDLoop rest tag

/-- `SceneManager::FindTextureID` (SceneManager.cpp lines 164-182). -/
def FindTextureID (sm : SceneManager) (tag : String) : Int :=
  findTextureIDLoop sm.textureIDs tag

/-- The `while` loop of `SceneManager::FindTextureSlot` (lines 190-208):
`index` starts at 0 and is incremented on every non-match; on the first
match `textureSlot` becomes the current index; `-1` otherwise. -/
def findTextureSlotLoop : List TextureSlot → String → Int → Int
  | [], _, _ => -1
  | s :: rest, tag, index =>
      if s.tag = tag then index else findTextureSlotLoop rest tag (index + 1)

/-- `SceneManager::FindTextureSlot` (SceneManager.cpp lines 190-208). -/
def FindTextureSlot (sm : SceneManager) (tag : String) : Int :=
  findTextureSlotLoop sm.textureIDs tag 0

/-- The `while` loop of `SceneManager::FindMaterial` (lines 225-240): on
the first entry whose tag matches, copy the five material fields (in the
source's order: diffuse, specular, shininess, ambient, ambientStrength)
into the by-reference `material` argument and stop; otherwise leave
`material` as it was. -/
def findMaterialLoop :
    List OBJECT_MATERIAL → String → OBJECT_MATERIAL → OBJECT_MATERIAL
  | [], _, material => material
  | entry :: rest, tag, material =>
      if entry.tag = tag then
        { material with
            diffuseColor := entry.diffuseColor,
            specularColor := entry.specularColor,
            shininess := entry.shininess,
            ambientColor := entry.ambientColor,
            ambientStrength := entry.ambientStrength }
      else
        findMaterialLoop rest tag material

/-- `SceneManager::FindMaterial` (SceneManager.cpp lines 216-243).  The
source returns `false` only on `m_objectMaterials.size() == 0`; after the
scan loop it returns `true` unconditionally (line 242) — whether or not
any entry matched.  The pair is (returned bool, final value of the
by-reference `material` argument). -/
def FindMaterial (mats : List OBJECT_MATERIAL) (tag : String)
    (material : OBJECT_MATERIAL) : Bool × OBJECT_MATERIAL :=
  if mats.length = 0 then
    (false, material)
  else
    (true, findMaterialLoop mats tag material)

/-- `glm::radians` : degrees to radians, `degrees * π / 180`. -/
noncomputable def radians (degrees : ℝ) : ℝ := degrees * (Real.pi / 180)

/-- `glm::scale(v)` : the homogeneous scaling matrix. -/
def glmScale (v : Vec3) : Mat4 :=
  !![v.1, 0, 0, 0;
     0, v.2.1, 0, 0;
     0, 0, v.2.2, 0;
     0, 0, 0, 1]

/-- `glm::translate(v)` : the homogeneous translation matrix. -/
def glmTranslate (v : Vec3) : Mat4 :=
  !![1, 0, 0, v.1;
     0, 1, 0, v.2.1;
     0, 0, 1, v.2.2;
     0, 0, 0, 1]

/-- `glm::rotate(angle, vec3(1,0,0))` : rotation by `angle` radians about
the X axis (the matrix glm's axis-angle rotation produces for the unit X
axis). -/
noncomputable def glmRotateX (angle : ℝ) : Mat4 :=
  !![1, 0, 0, 0;
     0, Real.cos angle, -Real.sin angle, 0;
     0, Real.sin angle, Real.cos angle, 0;
     0, 0, 0, 1]

/-- `glm::rotate(angle, vec3(0,1,0))` : rotation by `angle` radians about
the Y axis. -/
noncomputable def glmRotateY (angle : ℝ) : Mat4 :=
  !![Real.cos angle, 0, Real.sin angle, 0;
     0, 1, 0, 0;
     -Real.sin angle, 0, Real.cos angle, 0;
     0, 0, 0, 1]

/-- `glm::rotate(angle, vec3(0,0,1))` : rotation by `angle` radians about
the Z axis. -/
noncomputable def glmRotateZ (angle : ℝ) : Mat4 :=
  !![Real.cos angle, -Real.sin angle, 0, 0;
     Real.sin angle, Real.cos angle, 0, 0;
     0, 0, 1, 0;
     0, 0, 0, 1]

/-- `SceneManager::SetTransformations` (SceneManager.cpp lines 251-281):
builds `scale`, `rotationX/Y/Z` (degrees converted by `glm::radians`) and
`translation`, multiplies them as
`modelView = translation * rotationZ * rotationY * rotationX * scale`
(line 275), and uploads the product to the "model" uniform — guarded by
`NULL != m_pShaderManager` (line 277). -/
noncomputable def SetTransformations (scaleXYZ : Vec3) (XrotationDegrees : ℝ)
    (YrotationDegrees : ℝ) (ZrotationDegrees : ℝ) (positionXYZ : Vec3)
    (sm : SceneManager) : SceneManager :=
  let modelView : Mat4 :=
    glmTranslate positionXYZ * glmRotateZ (radians ZrotationDegrees) *
      glmRotateY (radians YrotationDegrees) *
      glmRotateX (radians XrotationDegrees) * glmScale scaleXYZ
  match sm.shader with
  | none => sm
  | some sh => { sm with shader := some { sh with model := some modelView } }

/-- `SceneManager::SetShaderColor` (SceneManager.cpp lines 289-308):
builds the RGBA vector and, when `m_pShaderManager` is non-NULL, sets
"bUseTexture" to false and uploads "objectColor". -/
def SetShaderColor (redColorValue greenColorValue blueColorValue
    alphaValue : ℝ) (sm : SceneManager) : SceneManager :=
  let currentColor : Vec4 :=
    (redColorValue, greenColorValue, blueColorValue, alphaValue)
  match sm.shader with
  | none => sm
  | some sh =>
      { sm with shader := some { sh with
          bUseTexture := some false, objectColor := some currentColor } }

/-- `SceneManager::SetShaderTexture` (SceneManager.cpp lines 456-467):
when `m_pShaderManager` is non-NULL, sets "bUseTexture" to true, resolves
`FindTextureSlot(textureTag)` and uploads the result as the
"objectTexture" sampler index (also on a `-1` miss). -/
def SetShaderTexture (textureTag : String) (sm : SceneManager) :
    SceneManager :=
  match sm.shader with
  | none => sm
  | some sh =>
      let textureID : Int := FindTextureSlot sm textureTag
      { sm with shader := some { sh with
          bUseTexture := some true, objectTexture := some textureID } }

/-- `SceneManager::SetTextureUVScale` (SceneManager.cpp lines 475-481):
when `m_pShaderManager` is non-NULL, uploads the "UVscale" uniform. -/
def SetTextureUVScale (u v : ℝ) (sm : SceneManager) : SceneManager :=
  match sm.shader with
  | none => sm
  | some sh =>
      { sm with shader := some { sh with UVscale := some (u, v) } }

/-- The default-constructed local `OBJECT_MATERIAL material;` of
`SceneManager::SetShaderMaterial` (line 494).  In C++ its numeric members
are default-constructed glm vectors / floats, i.e. indeterminate
(uninitialized) values; they are embedded here as zeros and the empty
string — any fixed values distinct from the registry entries exhibit the
same observable behavior. -/
def localMaterial : OBJECT_MATERIAL :=
  { diffuseColor := (0, 0, 0), specularColor := (0, 0, 0), shininess := 0,
    ambientColor := (0, 0, 0), ambientStrength := 0, tag := "" }

/-- `SceneManager::SetShaderMaterial` (SceneManager.cpp lines 489-507):
when the material list is non-empty, calls `FindMaterial` on a
default-constructed local and, when it returns true, uploads the five
material uniforms from that local (in source order: ambientColor,
ambientStrength, diffuseColor, specularColor, shininess).  The uploads
dereference `m_pShaderManager` with no NULL guard; a NULL dereference is
embedded as `none`. -/
def SetShaderMaterial (materialTag : String) (sm : SceneManager) :
    Option SceneManager :=
  if sm.objectMaterials.length > 0 then
    let r := FindMaterial sm.objectMaterials materialTag localMaterial
    if r.1 = true then
      match sm.shader with
      | none => none
      | some sh =>
          some { sm with shader := some { sh with
            materialAmbientColor := some r.2.ambientColor,
            materialAmbientStrength := some r.2.ambientStrength,
            materialDiffuseColor := some r.2.diffuseColor,
            materialSpecularColor := some r.2.specularColor,
            materialShininess := some r.2.shininess } }
    else
      some sm
  else
    some sm

/-- `SceneManager::SetupSceneLights` (SceneManager.cpp lines 314-341),
transcribed upload by upload in source order (including the doubled
`pointLights[0].specular` upload at lines 325-326, the second one
winning).  There is no `pointLights[0].position` upload in the source.
The body dereferences `m_pShaderManager` with no NULL guard; a NULL
dereference is embedded as `none`.  The disable loop
`for (int i = 2; i < 5; i++)` is the fold over `[2, 3, 4]`. -/
def SetupSceneLights (sm : SceneManager) : Option SceneManager :=
  match sm.shader with
  | none => none
  | some sh =>
      let sh := { sh with bUseLighting := some true }
      let sh := { sh with viewPosition := some (4, 1, 4) }
      let sh := setPointLight 0
        (fun pl => { pl with ambient := some (0.1, 0.1, 0.3) }) sh
      let sh := setPointLight 0
        (fun pl => { pl with diffuse := some (0.2, 0.2, 0.8) }) sh
      let sh := setPointLight 0
        (fun pl => { pl with specular := some (0.3, 0.3, 1.0) }) sh
      let sh := setPointLight 0
        (fun pl => { pl with specular := some (0.3, 0.3, 0.3) }) sh
      let sh := setPointLight 0
        (fun pl => { pl with bActive := some true }) sh
      let sh := setPointLight 1
        (fun pl => { pl with position := some (-77, 10, -27) }) sh
      let sh := setPointLight 1
        (fun pl => { pl with ambient := some (0.1, 0.1, 0.08) }) sh
      let sh := setPointLight 1
        (fun pl => { pl with diffuse := some (0.5, 0.5, 0.4) }) sh
      let sh := setPointLight 1
        (fun pl => { pl with specular := some (0.3, 0.3, 0.3) }) sh
      let sh := setPointLight 1
        (fun pl => { pl with bActive := some true }) sh
      let sh := (List.range' 2 3).foldl
        (fun s i =>
          setPointLight i (fun pl => { pl with bActive := some false }) s) sh
      let sh := { sh with spotLightActive := some false }
      some { sm with shader := some sh }

/-- `planeMaterial` pushed by `DefineObjectMaterials` (lines 349-356). -/
def planeMaterial : OBJECT_MATERIAL :=
  { tag := "plane", ambientColor := (0.3, 0.3, 0.25),
    ambientStrength := 0.3, diffuseColor := (0.8, 0.8, 0.8),
    specularColor := (0.2, 0.2, 0.2), shininess := 16 }

/-- `cylinderMaterial` pushed by `DefineObjectMaterials` (358-366). -/
def cylinderMaterial : OBJECT_MATERIAL :=
  { tag := "cylinder", ambientColor := (0.25, 0.25, 0.25),
    ambientStrength := 0.25, diffuseColor := (0.7, 0.7, 0.7),
    specularColor := (0.3, 0.3, 0.3), shininess := 32 }

/-- `boxMaterial` pushed by `DefineObjectMaterials` (368-376). -/
def boxMaterial : OBJECT_MATERIAL :=
  { tag := "box", ambientColor := (0.2, 0.15, 0.1),
    ambientStrength := 0.4, diffuseColor := (0.6, 0.4, 0.2),
    specularColor := (0.4, 0.4, 0.4), shininess := 64 }

/-- `sphereMaterial` pushed by `DefineObjectMaterials` (378-386). -/
def sphereMaterial : OBJECT_MATERIAL :=
  { tag := "sphere", ambientColor := (0.3, 0.25, 0.1),
    ambientStrength := 0.2, diffuseColor := (0.8, 0.7, 0.3),
    specularColor := (0.9, 0.9, 0.7), shininess := 128 }

/-- `lampBaseMaterial` pushed by `DefineObjectMaterials` (388-396). -/
def lampBaseMaterial : OBJECT_MATERIAL :=
  { tag := "lampBase", ambientColor := (0.1, 0.1, 0.1),
    ambientStrength := 0.3, diffuseColor := (0.3, 0.3, 0.3),
    specularColor := (0.5, 0.5, 0.5), shininess := 64 }

/-- `lampShadeMaterial` pushed by `DefineObjectMaterials` (398-406). -/
def lampShadeMaterial : OBJECT_MATERIAL :=
  { tag := "lampShade", ambientColor := (0.9, 0.9, 0.8),
    ambientStrength := 0.4, diffuseColor := (0.95, 0.95, 0.9),
    specularColor := (0.2, 0.2, 0.2), shininess := 16 }

/-- `bedMaterial` pushed by `DefineObjectMaterials` (408-416). -/
def bedMaterial : OBJECT_MATERIAL :=
  { tag := "bed", ambientColor := (0.1, 0.1, 0.3),
    ambientStrength := 0.3, diffuseColor := (0.2, 0.3, 0.8),
    specularColor := (0.1, 0.1, 0.3), shininess := 32 }

/-- `pillowMaterial` pushed by `DefineObjectMaterials` (418-426). -/
def pillowMaterial : OBJECT_MATERIAL :=
  { tag := "pillow", ambientColor := (0.9, 0.9, 0.9),
    ambientStrength := 0.4, diffuseColor := (1, 1, 1),
    specularColor := (0.3, 0.3, 0.3), shininess := 16 }

/-- `rugMaterial` pushed by `DefineObjectMaterials` (428-435). -/
def rugMaterial : OBJECT_MATERIAL :=
  { tag := "rug", ambientColor := (0.3, 0.1, 0.1),
    ambientStrength := 0.4, diffuseColor := (0.7, 0.2, 0.2),
    specularColor := (0.1, 0.1, 0.1), shininess := 8 }

/-- `SceneManager::DefineObjectMaterials` (SceneManager.cpp lines
346-437): pushes the nine materials onto `m_objectMaterials` in source
order. -/
def DefineObjectMaterials (sm : SceneManager) : SceneManager :=
  { sm with objectMaterials := sm.objectMaterials ++
      [planeMaterial, cylinderMaterial, boxMaterial, sphereMaterial,
       lampBaseMaterial, lampShadeMaterial, bedMaterial, pillowMaterial,
       rugMaterial] }

/-- One call made by the scene-orchestration methods (`PrepareScene`,
`LoadSceneTextures`): lighting setup, material definitions, a mesh load
request to the external provider, a texture registration, or a
`BindGLTextures` bind-all. -/
inductive SceneCall where
  | setupSceneLights : SceneCall
  | defineObjectMaterials : SceneCall
  | loadMesh : String → SceneCall
  | createGLTexture : String → String → SceneCall
  | bindGLTextures : SceneCall
deriving DecidableEq

/-- The exact call sequence of `SceneManager::PrepareScene`
(SceneManager.cpp lines 524-545), in source order. -/
def prepareSceneCalls : List SceneCall :=
  [SceneCall.setupSceneLights,
   SceneCall.defineObjectMaterials,
   SceneCall.loadMesh "plane",
   SceneCall.loadMesh "box",
   SceneCall.loadMesh "sphere",
   SceneCall.loadMesh "cylinder",
   SceneCall.loadMesh "cone",
   SceneCall.createGLTexture "textures/oakd.jpg" "oakd",
   SceneCall.createGLTexture "textures/oakl.jpg" "oakl",
   SceneCall.createGLTexture "textures/brass.jpg" "brass",
   SceneCall.createGLTexture "textures/carpet.jpg" "carpet",
   SceneCall.createGLTexture "textures/sheet.jpg" "sheet"]

/-- The exact call sequence of `SceneManager::LoadSceneTextures`
(SceneManager.cpp lines 439-449) — the only method in the source that
calls `BindGLTextures`, and one that `PrepareScene` and `RenderScene`
never invoke. -/
def loadSceneTexturesCalls : List SceneCall :=
  [SceneCall.createGLTexture "textures/oakd.jpg" "oakd",
   SceneCall.createGLTexture "textures/oakl.jpg" "oakl",
   SceneCall.createGLTexture "textures/brass.jpg" "brass",
   SceneCall.bindGLTextures]

/-- A scene manager holding a fresh (nothing-uploaded) shader store and
empty registries: the state right after construction with a non-NULL
`ShaderManager`. -/
def lightsSM : SceneManager :=
  { shader := some initShader, textureIDs := [], objectMaterials := [] }

/-- A freshly-constructed scene manager after `DefineObjectMaterials` has
populated the material registry (the state in which `SetShaderMaterial`
is called during rendering). -/
def materialDemoSM : SceneManager :=
  DefineObjectMaterials
    { shader := some initShader, textureIDs := [], objectMaterials := [] }

/-- A freshly-constructed scene manager with a non-NULL shader manager,
used to exercise `SetTransformations`. -/
def transformDemoSM : SceneManager :=
  { shader := some initShader, textureIDs := [], objectMaterials := [] }

/-- A scene manager whose `m_pShaderManager` is NULL. -/
def nullShaderSM : SceneManager :=
  { shader := none, textureIDs := [], objectMaterials := [] }

/-- A scene manager with one registered texture slot, used to exercise
the lookup-miss paths. -/
def texDemoSM : SceneManager :=
  { shader := none, textureIDs := [⟨5, "oakd"⟩], objectMaterials := [] }

/-- A scene manager with one registered texture slot, used to exercise
the registration-failure paths. -/
def texFailSM : SceneManager :=
  { shader := none, textureIDs := [⟨1, "oakd"⟩], objectMaterials := [] }

/-- Sixteen registered texture slots: the `m_textureIDs` array is
completely full (`m_loadedTextures == 16`). -/
def sixteenSlots : List TextureSlot :=
  (List.range 16).map fun i => ⟨i, "tex" ++ toString i⟩

/-- A scene manager whose texture array is completely full. -/
def sixteenSlotsSM : SceneManager :=
  { shader := none, textureIDs := sixteenSlots, objectMaterials := [] }

/-- The five material uniforms ("material.ambientColor",
"material.ambientStrength", "material.diffuseColor",
"material.specularColor", "material.shininess") of the shader store of
an optional scene manager, or `none` when the computation already hit
undefined behavior or a NULL shader manager. -/
def materialUniformsOf (o : Option SceneManager) :
    Option (Option Vec3 × Option ℝ × Option Vec3 × Option Vec3 × Option ℝ) :=
  o.bind fun sm => sm.shader.map fun sh =>
    (sh.materialAmbientColor, sh.materialAmbientStrength,
     sh.materialDiffuseColor, sh.materialSpecularColor, sh.materialShininess)

/-- The `pointLights[i]` uniform block of the shader store of an optional
scene manager. -/
def pointLightOf (o : Option SceneManager) (i : Nat) : Option PointLight :=
  o.bind fun sm => sm.shader.map fun sh => sh.pointLights i

/-- Helper: the `FindTextureID` scan loop returns `-1` when no slot of
the list carries the wanted tag. -/
theorem findTextureIDLoop_miss (l : List TextureSlot) (tag : String)
    (h : ∀ s ∈ l, s.tag ≠ tag) : findTextureIDLoop l tag = -1 := by
  induction l with
  | nil => rfl
  | cons s rest ih =>
      unfold findTextureIDLoop
      rw [if_neg (h s (List.mem_cons_self s rest))]
      exact ih fun x hx => h x (List.mem_cons_of_mem s hx)

/-- Helper: the `FindTextureSlot` scan loop returns `-1` when no slot of
the list carries the wanted tag, whatever index it starts from. -/
theorem findTextureSlotLoop_miss (l : List TextureSlot) (tag : String)
    (i : Int) (h : ∀ s ∈ l, s.tag ≠ tag) :
    findTextureSlotLoop l tag i = -1 := by
  induction l generalizing i with
  | nil => rfl
  | cons s rest ih =>
      unfold findTextureSlotLoop
      rw [if_neg (h s (List.mem_cons_self s rest))]
      exact ih (i + 1) fun x hx => h x (List.mem_cons_of_mem s hx)

/-- Helper: one step of the `FindTextureSlot` scan loop. -/
theorem findTextureSlotLoop_cons (s : TextureSlot) (rest : List TextureSlot)
    (tag : String) (i : Int) :
    findTextureSlotLoop (s :: rest) tag i =
      if s.tag = tag then i else findTextureSlotLoop rest tag (i + 1) := rfl

/-- Helper: the `FindTextureSlot` scan loop walks past a tag-free prefix,
advancing its index by the prefix length. -/
theorem findTextureSlotLoop_append (pre l : List TextureSlot) (tag : String)
    (i : Int) (h : ∀ s ∈ pre, s.tag ≠ tag) :
    findTextureSlotLoop (pre ++ l) tag i =
      findTextureSlotLoop l tag (i + pre.length) := by
  induction pre generalizing i with
  | nil => simp
  | cons s rest ih =>
      have hs : s.tag ≠ tag := h s (List.mem_cons_self s rest)
      have hrest : ∀ x ∈ rest, x.tag ≠ tag := fun x hx =>
        h x (List.mem_cons_of_mem s hx)
      calc findTextureSlotLoop ((s :: rest) ++ l) tag i
          = findTextureSlotLoop (rest ++ l) tag (i + 1) := by
            rw [List.cons_append, findTextureSlotLoop_cons, if_neg hs]
        _ = findTextureSlotLoop l tag ((i + 1) + rest.length) :=
            ih (i + 1) hrest
        _ = findTextureSlotLoop l tag (i + (s :: rest).length) := by
            congr 1
            simp only [List.length_cons]
            push_cast
            ring

/-- C1: the claim states that `SetShaderMaterial "plane"` followed by
`SetShaderMaterial "nonexistent"` uploads none of the five material
uniforms on the miss, leaving all five equal to the "plane" values.  On
the source this is FALSE: with a non-empty registry `FindMaterial`
returns `true` even on a miss (line 242), so the second call uploads all
five uniforms from its default-constructed (in C++: uninitialized) local
`OBJECT_MATERIAL`, overwriting the "plane" values.  This theorem
evaluates the code at that failing input: after the first call the
uniforms hold the "plane" values; after the second they hold the local
material's values instead, and the two uniform states differ. -/
theorem setShaderMaterial_miss_uploads_local :
    materialUniformsOf (SetShaderMaterial "plane" materialDemoSM) =
      some (some (0.3, 0.3, 0.25), some 0.3, some (0.8, 0.8, 0.8),
        some (0.2, 0.2, 0.2), some 16) ∧
    materialUniformsOf ((SetShaderMaterial "plane" materialDemoSM).bind
        (SetShaderMaterial "nonexistent")) =
      some (some (0, 0, 0), some 0, some (0, 0, 0), some (0, 0, 0),
        some 0) ∧
    materialUniformsOf ((SetShaderMaterial "plane" materialDemoSM).bind
        (SetShaderMaterial "nonexistent")) ≠
      materialUniformsOf (SetShaderMaterial "plane" materialDemoSM) := by
  refine ⟨rfl, rfl, ?_⟩
  have h1 : materialUniformsOf (SetShaderMaterial "plane" materialDemoSM) =
      some (some (0.3, 0.3, 0.25), some 0.3, some (0.8, 0.8, 0.8),
        some (0.2, 0.2, 0.2), some 16) := rfl
  have h2 : materialUniformsOf ((SetShaderMaterial "plane" materialDemoSM).bind
        (SetShaderMaterial "nonexistent")) =
      some (some (0, 0, 0), some 0, some (0, 0, 0), some (0, 0, 0),
        some 0) := rfl
  rw [h1, h2]
  simp only [ne_eq, Option.some.injEq, Prod.mk.injEq, not_and]
  intro hamb
  norm_num at hamb

/-- C2: the claim states that `FindMaterial` returns `false` whenever no
entry matches, and returns `true` only when a matching entry exists.  On
the source this is FALSE: with the (non-empty) registry built by
`DefineObjectMaterials` and the unmatched tag "nonexistent",
`FindMaterial` returns `true` (line 242 is reached with `bFound ==
false`) while leaving the output material unmodified.  This theorem
evaluates the code at that failing input. -/
theorem findMaterial_true_on_nonempty_miss :
    materialDemoSM.objectMaterials.length > 0 ∧
    (∀ m ∈ materialDemoSM.objectMaterials, m.tag ≠ "nonexistent") ∧
    FindMaterial materialDemoSM.objectMaterials "nonexistent" localMaterial =
      (true, localMaterial) :=
  ⟨by decide, by decide, rfl⟩

/-- C3: the claim states that `PrepareScene` performs lighting setup,
material definitions, mesh loads, texture registrations AND the binding
of all registered textures (`BindGLTextures`) before the first
`RenderScene` draw.  On the source this is FALSE: the call sequence of
`PrepareScene` (lines 524-545) contains the lighting setup, the material
definitions, the five mesh loads and the five texture registrations, but
no `BindGLTextures` call at all (the only caller of `BindGLTextures` in
the source is `LoadSceneTextures`, which neither `PrepareScene` nor
`RenderScene` invokes).  This theorem evaluates the transcribed call
sequences. -/
theorem prepareScene_omits_bindGLTextures :
    SceneCall.setupSceneLights ∈ prepareSceneCalls ∧
    SceneCall.defineObjectMaterials ∈ prepareSceneCalls ∧
    SceneCall.loadMesh "plane" ∈ prepareSceneCalls ∧
    SceneCall.loadMesh "box" ∈ prepareSceneCalls ∧
    SceneCall.loadMesh "sphere" ∈ prepareSceneCalls ∧
    SceneCall.loadMesh "cylinder" ∈ prepareSceneCalls ∧
    SceneCall.loadMesh "cone" ∈ prepareSceneCalls ∧
    SceneCall.createGLTexture "textures/oakd.jpg" "oakd" ∈ prepareSceneCalls ∧
    SceneCall.createGLTexture "textures/oakl.jpg" "oakl" ∈ prepareSceneCalls ∧
    SceneCall.createGLTexture "textures/brass.jpg" "brass" ∈ prepareSceneCalls ∧
    SceneCall.createGLTexture "textures/carpet.jpg" "carpet" ∈
      prepareSceneCalls ∧
    SceneCall.createGLTexture "textures/sheet.jpg" "sheet" ∈
      prepareSceneCalls ∧
    SceneCall.bindGLTextures ∉ prepareSceneCalls ∧
    SceneCall.bindGLTextures ∈ loadSceneTexturesCalls := by decide

/-- C4: the claim states that a 17th registration fails loudly and never
writes outside the fixed-capacity slot array.  On the source this is
FALSE: `CreateGLTexture` has no capacity check, so with 16 slots already
registered a successful 3-channel decode executes
`m_textureIDs[16] = …` — an out-of-bounds write into the 16-element
array, i.e. undefined behavior (embedded as `none`), not a loud failure
(`some (false, unchanged)`) and not a clean append.  This theorem
evaluates the code at that failing input. -/
theorem createGLTexture_overflow_out_of_bounds :
    sixteenSlotsSM.textureIDs.length = 16 ∧
    CreateGLTexture (some ⟨64, 64, 3⟩) 99 "extra" sixteenSlotsSM = none ∧
    ∀ b : Bool, ∀ sm : SceneManager,
      CreateGLTexture (some ⟨64, 64, 3⟩) 99 "extra" sixteenSlotsSM ≠
        some (b, sm) :=
  ⟨rfl, rfl, fun _ _ h => Option.noConfusion h⟩

/-- C5 counterexample: the claim states that after `SetupSceneLights`
both point-light slots 0 and 1 have position, ambient, diffuse and
specular uploaded.  Running `SetupSceneLights` on a freshly-constructed
scene manager (no uniform ever uploaded), slot 0's position uniform is
still `none`: the source never uploads `pointLights[0].position` (lines
322-327 set only ambient, diffuse, specular — twice — and bActive), so
the claim as stated is false at this input. -/
theorem setupSceneLights_light0_position_never_uploaded :
    (pointLightOf (SetupSceneLights lightsSM) 0).map PointLight.position =
      some none ∧
    ¬ ∃ p : Vec3,
        (pointLightOf (SetupSceneLights lightsSM) 0).map PointLight.position =
          some (some p) := by
  refine ⟨rfl, ?_⟩
  rintro ⟨p, hp⟩
  rw [show (pointLightOf (SetupSceneLights lightsSM) 0).map
        PointLight.position = some none from rfl] at hp
  simp at hp

/-- C5 (amended): after `SetupSceneLights` runs once on a state with a
non-NULL shader manager, the lighting flag is enabled; point-light slot 0
is marked active with its ambient, diffuse and specular uploaded (its
position is never uploaded and keeps its previous value); point-light
slot 1 is marked active with its position, ambient, diffuse and specular
uploaded; and point-light slots 2 through 4 plus the spotlight slot are
explicitly marked inactive. -/
theorem setupSceneLights_amended_effects :
    ∀ (sm : SceneManager) (sh : ShaderState), sm.shader = some sh →
      ∃ shr, SetupSceneLights sm = some { sm with shader := some shr } ∧
        shr.bUseLighting = some true ∧
        (shr.pointLights 0).bActive = some true ∧
        (shr.pointLights 0).ambient = some (0.1, 0.1, 0.3) ∧
        (shr.pointLights 0).diffuse = some (0.2, 0.2, 0.8) ∧
        (shr.pointLights 0).specular = some (0.3, 0.3, 0.3) ∧
        (shr.pointLights 0).position = (sh.pointLights 0).position ∧
        (shr.pointLights 1).bActive = some true ∧
        (shr.pointLights 1).position = some (-77, 10, -27) ∧
        (shr.pointLights 1).ambient = some (0.1, 0.1, 0.08) ∧
        (shr.pointLights 1).diffuse = some (0.5, 0.5, 0.4) ∧
        (shr.pointLights 1).specular = some (0.3, 0.3, 0.3) ∧
        (shr.pointLights 2).bActive = some false ∧
        (shr.pointLights 3).bActive = some false ∧
        (shr.pointLights 4).bActive = some false ∧
        shr.spotLightActive = some false := by
  intro sm sh h
  unfold SetupSceneLights
  rw [h]
  exact ⟨_, rfl, rfl, rfl, rfl, rfl, rfl, rfl, rfl, rfl, rfl, rfl, rfl,
    rfl, rfl, rfl, rfl⟩

/-- Witness for C5 (amended): the amended effects hold at the concrete
freshly-constructed scene manager. -/
theorem setupSceneLights_amended_effects_witness :
    lightsSM.shader = some initShader ∧
    ∃ shr, SetupSceneLights lightsSM =
        some { lightsSM with shader := some shr } ∧
      shr.bUseLighting = some true ∧
      (shr.pointLights 0).bActive = some true ∧
      (shr.pointLights 0).ambient = some (0.1, 0.1, 0.3) ∧
      (shr.pointLights 0).diffuse = some (0.2, 0.2, 0.8) ∧
      (shr.pointLights 0).specular = some (0.3, 0.3, 0.3) ∧
      (shr.pointLights 0).position = (initShader.pointLights 0).position ∧
      (shr.pointLights 1).bActive = some true ∧
      (shr.pointLights 1).position = some (-77, 10, -27) ∧
      (shr.pointLights 1).ambient = some (0.1, 0.1, 0.08) ∧
      (shr.pointLights 1).diffuse = some (0.5, 0.5, 0.4) ∧
      (shr.pointLights 1).specular = some (0.3, 0.3, 0.3) ∧
      (shr.pointLights 2).bActive = some false ∧
      (shr.pointLights 3).bActive = some false ∧
      (shr.pointLights 4).bActive = some false ∧
      shr.spotLightActive = some false :=
  ⟨rfl, setupSceneLights_amended_effects lightsSM initShader rfl⟩

/-- C6: for every scale vector, rotation-degree triple and translation
vector, `SetTransformations` uploads the model matrix
`Translation * RotationZ * RotationY * RotationX * Scale`, every angle
converted from degrees to radians, each rotation about its fixed axis;
and this ordering is not interchangeable: at scale `(1,1,1)`, rotation
`(90°,0,0)` and translation `(0,0,3)` the composed matrix sends the
sample point `(0,1,0,1)` to `(0,0,4,1)` (rotate about X first, then
translate), whereas translating before rotating sends it elsewhere. -/
theorem setTransformations_composition_order :
    (∀ (scaleXYZ : Vec3) (xr yr zr : ℝ) (positionXYZ : Vec3)
        (sm : SceneManager) (sh : ShaderState), sm.shader = some sh →
        SetTransformations scaleXYZ xr yr zr positionXYZ sm =
          { sm with shader := some { sh with model := some (
              glmTranslate positionXYZ * glmRotateZ (radians zr) *
              glmRotateY (radians yr) * glmRotateX (radians xr) *
              glmScale scaleXYZ) } }) ∧
    Matrix.mulVec
      (glmTranslate (0, 0, 3) * glmRotateZ (radians 0) *
        glmRotateY (radians 0) * glmRotateX (radians 90) *
        glmScale (1, 1, 1)) ![0, 1, 0, 1] = ![0, 0, 4, 1] ∧
    Matrix.mulVec
      (glmRotateX (radians 90) * glmTranslate (0, 0, 3) *
        glmRotateZ (radians 0) * glmRotateY (radians 0) *
        glmScale (1, 1, 1)) ![0, 1, 0, 1] ≠ ![0, 0, 4, 1] := by
  refine ⟨?_, ?_, ?_⟩
  · intro scaleXYZ xr yr zr positionXYZ sm sh h
    unfold SetTransformations
    rw [h]
  · have h90 : radians 90 = Real.pi / 2 := by unfold radians; ring
    have h0 : radians 0 = 0 := by unfold radians; ring
    rw [h90, h0]
    funext i
    fin_cases i <;>
      simp [glmTranslate, glmRotateX, glmRotateY, glmRotateZ, glmScale,
        Matrix.mulVec, Matrix.mul_apply, Matrix.dotProduct,
        Fin.sum_univ_four, Real.cos_pi_div_two, Real.sin_pi_div_two]
    norm_num
  · have h90 : radians 90 = Real.pi / 2 := by unfold radians; ring
    have h0 : radians 0 = 0 := by unfold radians; ring
    rw [h90, h0]
    intro h
    have h1 := congrFun h 1
    simp [glmTranslate, glmRotateX, glmRotateY, glmRotateZ, glmScale,
      Matrix.mulVec, Matrix.mul_apply, Matrix.dotProduct,
      Fin.sum_univ_four, Real.cos_pi_div_two, Real.sin_pi_div_two] at h1

/-- Witness for C6: the uploaded model matrix at scale `(1,1,1)`,
rotation `(90°,0,0)`, translation `(0,0,3)` on a freshly-constructed
scene manager. -/
theorem setTransformations_composition_order_witness :
    SetTransformations (1, 1, 1) 90 0 0 (0, 0, 3) transformDemoSM =
      { transformDemoSM with shader := some { initShader with model := some (
          glmTranslate (0, 0, 3) * glmRotateZ (radians 0) *
          glmRotateY (radians 0) * glmRotateX (radians 90) *
          glmScale (1, 1, 1)) } } :=
  setTransformations_composition_order.1 (1, 1, 1) 90 0 0 (0, 0, 3)
    transformDemoSM initShader rfl

/-- C7: whenever `CreateGLTexture` fails — decode failure, or a decoded
channel count that is neither 3 nor 4 — it returns `false` and leaves the
scene-manager state (in particular the registered slot sequence: same
length, same tags, same handles) completely unchanged. -/
theorem createGLTexture_failure_leaves_registry :
    ∀ (textureID : Nat) (tag : String) (sm : SceneManager),
      CreateGLTexture none textureID tag sm = some (false, sm) ∧
      ∀ img : ImageData, img.channels ≠ 3 → img.channels ≠ 4 →
        CreateGLTexture (some img) textureID tag sm = some (false, sm) := by
  intro textureID tag sm
  refine ⟨rfl, ?_⟩
  intro img h3 h4
  unfold CreateGLTexture
  simp [h3, h4]

/-- Witness for C7: a decoded 2-channel image is rejected with the
registry unchanged. -/
theorem createGLTexture_failure_leaves_registry_witness :
    ((2 : Int) ≠ 3 ∧ (2 : Int) ≠ 4) ∧
    CreateGLTexture (some ⟨8, 8, 2⟩) 7 "gray" texFailSM =
      some (false, texFailSM) :=
  ⟨⟨by decide, by decide⟩,
    (createGLTexture_failure_leaves_registry 7 "gray" texFailSM).2
      ⟨8, 8, 2⟩ (by decide) (by decide)⟩

/-- C8: for every tag that matches no registered texture slot, both
`FindTextureID` and `FindTextureSlot` return the `-1` sentinel. -/
theorem findTexture_miss_returns_sentinel :
    ∀ (sm : SceneManager) (tag : String),
      (∀ s ∈ sm.textureIDs, s.tag ≠ tag) →
      FindTextureID sm tag = -1 ∧ FindTextureSlot sm tag = -1 :=
  fun sm tag h =>
    ⟨findTextureIDLoop_miss sm.textureIDs tag h,
     findTextureSlotLoop_miss sm.textureIDs tag 0 h⟩

/-- Witness for C8: looking up an unregistered tag in a registry holding
one slot yields the sentinel from both lookups. -/
theorem findTexture_miss_returns_sentinel_witness :
    (∀ s ∈ texDemoSM.textureIDs, s.tag ≠ "zzz") ∧
    (FindTextureID texDemoSM "zzz" = -1 ∧
      FindTextureSlot texDemoSM "zzz" = -1) :=
  ⟨by decide, findTexture_miss_returns_sentinel texDemoSM "zzz" (by decide)⟩

/-- C9: with two texture slots registered under the same tag (the first
preceded by slots that do not carry the tag), `FindTextureSlot` returns
the slot index of the first (earlier) registration — `pre.length` — which
is strictly smaller than the index of the second registration,
`pre.length + 1 + mid.length`: first-match-wins over the ordered slot
sequence. -/
theorem findTextureSlot_first_match_wins :
    ∀ (pre mid post : List TextureSlot) (id1 id2 : Nat) (tag : String)
      (sh : Option ShaderState) (mats : List OBJECT_MATERIAL),
      (∀ s ∈ pre, s.tag ≠ tag) →
      FindTextureSlot
        ⟨sh, pre ++ ⟨id1, tag⟩ :: (mid ++ ⟨id2, tag⟩ :: post), mats⟩ tag =
        (pre.length : Int) ∧
      (pre.length : Int) < (pre.length : Int) + 1 + (mid.length : Int) := by
  intro pre mid post id1 id2 tag sh mats h
  constructor
  · unfold FindTextureSlot
    rw [findTextureSlotLoop_append pre _ tag 0 h, findTextureSlotLoop_cons]
    simp
  · omega

/-- Witness for C9: duplicate registrations of "dup" at slot indices 1
and 2 behind an unrelated slot; lookup returns index 1, the first. -/
theorem findTextureSlot_first_match_wins_witness :
    (∀ s ∈ [(⟨7, "oakd"⟩ : TextureSlot)], s.tag ≠ "dup") ∧
    (FindTextureSlot
        ⟨none, [⟨7, "oakd"⟩] ++ ⟨3, "dup"⟩ :: (([] : List TextureSlot) ++
          ⟨9, "dup"⟩ :: ([] : List TextureSlot)), []⟩ "dup" =
        (([(⟨7, "oakd"⟩ : TextureSlot)].length : Nat) : Int) ∧
      (([(⟨7, "oakd"⟩ : TextureSlot)].length : Nat) : Int) <
        (([(⟨7, "oakd"⟩ : TextureSlot)].length : Nat) : Int) + 1 +
          ((([] : List TextureSlot).length : Nat) : Int)) :=
  ⟨by decide,
    findTextureSlot_first_match_wins [⟨7, "oakd"⟩] [] [] 3 9 "dup" none []
      (by decide)⟩

/-- C10: when the shader-manager pointer is NULL, each of
`SetTransformations`, `SetShaderColor`, `SetShaderTexture` and
`SetTextureUVScale` performs no uniform upload and returns normally,
leaving the scene-manager state untouched (the NULL pointer is never
dereferenced by these four operations). -/
theorem null_shader_manager_noop :
    ∀ (sm : SceneManager), sm.shader = none →
      ∀ (scaleXYZ positionXYZ : Vec3) (xr yr zr r g b a u v : ℝ)
        (tag : String),
        SetTransformations scaleXYZ xr yr zr positionXYZ sm = sm ∧
        SetShaderColor r g b a sm = sm ∧
        SetShaderTexture tag sm = sm ∧
        SetTextureUVScale u v sm = sm := by
  intro sm h scaleXYZ positionXYZ xr yr zr r g b a u v tag
  refine ⟨?_, ?_, ?_, ?_⟩
  · unfold SetTransformations; rw [h]
  · unfold SetShaderColor; rw [h]
  · unfold SetShaderTexture; rw [h]
  · unfold SetTextureUVScale; rw [h]

/-- Witness for C10: the four binding operations leave a NULL-shader
scene manager untouched at concrete arguments. -/
theorem null_shader_manager_noop_witness :
    nullShaderSM.shader = none ∧
    (SetTransformations (2, 2, 2) 10 20 30 (1, 0, 0) nullShaderSM =
        nullShaderSM ∧
      SetShaderColor 0.5 0.5 0.5 1 nullShaderSM = nullShaderSM ∧
      SetShaderTexture "oakd" nullShaderSM = nullShaderSM ∧
      SetTextureUVScale 3 4 nullShaderSM = nullShaderSM) :=
  ⟨rfl, null_shader_manager_noop nullShaderSM rfl (2, 2, 2) (1, 0, 0)
    10 20 30 0.5 0.5 0.5 1 3 4 "oakd"⟩
